import Mathlib

/-!
Verification development for the QuantumOpt task-queue core.

This file gives a shallow embedding, in Lean 4, of the parts of the
QuantumOpt source that the checked properties speak about:

* `src/quantum_opt/utils/events.py` — the `EventType` enum, the `Event`
  class and the `EventEmitter` publish/subscribe base class;
* `src/quantum_opt/queue/task.py` — `OptimizationTask`: its status field,
  `start` / `pause` / `resume` / `stop` control methods, the
  `handle_optimizer_event` subscriber and the `_run_optimization` loop;
* `src/quantum_opt/queue/manager.py` — `TaskQueue`: `add_task`,
  `get_task`, `list_tasks`, `stop_processing`, the per-task delegate
  operations and the `_process_tasks` scheduling loop;
* `src/quantum_opt/optimizers/base_optimizer.py` — the evaluation loop of
  `BaseParallelOptimizer.optimize`;
* `src/quantum_opt/web/backend/websocket_manager.py` — `WebSocketManager`:
  `connect`, `broadcast`, `_handle_queue_event` and the replay buffer.

Python floats are embedded as `WithTop ℚ` (the value `float("inf")` used
as the initial best value is `⊤`; the comparisons the code performs on
these values coincide with the rational comparisons).  Python `dict`s
appearing as ordered mappings are embedded as association lists in
insertion order.  Methods that can raise return `Except String`, the
string being the exception rendered by `str(e)` as the source formats it.
Attribute lookups that the source performs on attributes that no class in
the source defines are embedded as the `AttributeError` the Python
runtime raises at that point; each such place is documented where it is
modelled.
-/

namespace QuantumOpt

/-- Embedded Python float: a rational or the IEEE positive infinity that
`float("inf")` denotes in `task.py` and `base_optimizer.py`. -/
abbrev PFloat := WithTop ℚ

/-- The `EventType` enum of `utils/events.py` (twenty members, declared
with `auto()` in this order, so their `.value` is 1..20). -/
inductive EventType where
  | QUEUE_STARTED
  | QUEUE_STOPPED
  | QUEUE_PAUSED
  | QUEUE_RESUMED
  | QUEUE_ERROR
  | TASK_ADDED
  | TASK_STARTED
  | TASK_COMPLETED
  | TASK_FAILED
  | TASK_PAUSED
  | TASK_RESUMED
  | TASK_STOPPED
  | TASK_REMOVED
  | TASK_STATUS_CHANGED
  | ITERATION_COMPLETED
  | NEW_BEST_FOUND
  | OPTIMIZATION_COMPLETED
  | OPTIMIZATION_ERROR
  | ERROR
  | WARNING
  | INFO
deriving DecidableEq, Repr

/-- `EventType.value`: `auto()` numbers the members 1, 2, ... in
declaration order. -/
def EventType.value : EventType → Nat
  | .QUEUE_STARTED => 1
  | .QUEUE_STOPPED => 2
  | .QUEUE_PAUSED => 3
  | .QUEUE_RESUMED => 4
  | .QUEUE_ERROR => 5
  | .TASK_ADDED => 6
  | .TASK_STARTED => 7
  | .TASK_COMPLETED => 8
  | .TASK_FAILED => 9
  | .TASK_PAUSED => 10
  | .TASK_RESUMED => 11
  | .TASK_STOPPED => 12
  | .TASK_REMOVED => 13
  | .TASK_STATUS_CHANGED => 14
  | .ITERATION_COMPLETED => 15
  | .NEW_BEST_FOUND => 16
  | .OPTIMIZATION_COMPLETED => 17
  | .OPTIMIZATION_ERROR => 18
  | .ERROR => 19
  | .WARNING => 20
  | .INFO => 21

/-- `EventType.name` of a member, as Python renders it. -/
def EventType.pyName : EventType → String
  | .QUEUE_STARTED => "QUEUE_STARTED"
  | .QUEUE_STOPPED => "QUEUE_STOPPED"
  | .QUEUE_PAUSED => "QUEUE_PAUSED"
  | .QUEUE_RESUMED => "QUEUE_RESUMED"
  | .QUEUE_ERROR => "QUEUE_ERROR"
  | .TASK_ADDED => "TASK_ADDED"
  | .TASK_STARTED => "TASK_STARTED"
  | .TASK_COMPLETED => "TASK_COMPLETED"
  | .TASK_FAILED => "TASK_FAILED"
  | .TASK_PAUSED => "TASK_PAUSED"
  | .TASK_RESUMED => "TASK_RESUMED"
  | .TASK_STOPPED => "TASK_STOPPED"
  | .TASK_REMOVED => "TASK_REMOVED"
  | .TASK_STATUS_CHANGED => "TASK_STATUS_CHANGED"
  | .ITERATION_COMPLETED => "ITERATION_COMPLETED"
  | .NEW_BEST_FOUND => "NEW_BEST_FOUND"
  | .OPTIMIZATION_COMPLETED => "OPTIMIZATION_COMPLETED"
  | .OPTIMIZATION_ERROR => "OPTIMIZATION_ERROR"
  | .ERROR => "ERROR"
  | .WARNING => "WARNING"
  | .INFO => "INFO"

/-- The Python values that flow through event payloads and trace points in
the embedded code paths: floats, ints, strings, booleans, `None`, and the
flat parameter dictionaries (`candidate.kwargs`: name to float). -/
inductive PyVal where
  | num (r : PFloat)
  | int (n : Int)
  | str (s : String)
  | pybool (b : Bool)
  | pynone
  | pdict (kvs : List (String × ℚ))
deriving DecidableEq, Repr

/-- The `Event` class of `utils/events.py`.  Its constructor assigns
exactly the attributes `type`, `task_id` and `data` (lines 106-108); no
code in the repository assigns any further attribute on an `Event`, so in
particular an `Event` has no `timestamp` and no `event_type` attribute. -/
structure Event where
  type : EventType
  task_id : Option String
  data : List (String × PyVal)
deriving DecidableEq, Repr

/-- `create_task_event` / `create_optimization_event` of
`utils/events.py`: build an `Event` from a type, a task id and keyword
data. -/
def create_task_event (t : EventType) (id : String)
    (data : List (String × PyVal)) : Event :=
  { type := t, task_id := some id, data := data }

/-- A value of the dictionary `Event.to_dict` builds: either a flat value
or the nested `data` dictionary. -/
inductive PyTop where
  | v (p : PyVal)
  | dictv (kvs : List (String × PyVal))
deriving DecidableEq, Repr

/-- `Event.to_dict` (`utils/events.py` lines 110-116): the dictionary has
exactly the keys `type` (the enum member name), `task_id` and `data`. -/
def Event.to_dict (e : Event) : List (String × PyTop) :=
  [("type", .v (.str e.type.pyName)),
   ("task_id", match e.task_id with | some s => .v (.str s) | none => .v .pynone),
   ("data", .dictv e.data)]

/-- Dictionary lookup `d.get(k)` on an embedded ordered mapping. -/
def pget (kvs : List (String × PyVal)) (k : String) : Option PyVal :=
  match kvs with
  | [] => none
  | (k₀, v) :: rest => if k₀ = k then some v else pget rest k

/-- Dictionary lookup `d.get(k, default)`. -/
def pgetD (kvs : List (String × PyVal)) (k : String) (d : PyVal) : PyVal :=
  (pget kvs k).getD d

/-- Task status strings used throughout `task.py` and `manager.py`. -/
inductive TaskStatus where
  | pending
  | running
  | paused
  | stopped
  | completed
  | failed
deriving DecidableEq, Repr

/-- The string a status renders to inside f-strings such as
`f"Cannot stop task in {self.status} state"`. -/
def TaskStatus.toStr : TaskStatus → String
  | .pending => "pending"
  | .running => "running"
  | .paused => "paused"
  | .stopped => "stopped"
  | .completed => "completed"
  | .failed => "failed"

/-- One entry of `self.result["optimization_trace"]`, with the keys the
source writes in `handle_optimizer_event` (task.py lines 169-177) and in
the completion path (task.py lines 215-223).  Values read with `.get` out
of event data can be `None`, which is why `value`, `best_value` and the
parameter fields are `PyVal`. -/
structure TracePoint where
  iteration : Nat
  value : PyVal
  best_value : PyVal
  params : PyVal
  best_params : PyVal
  total_evaluations : PyVal
  timestamp : ℚ
deriving DecidableEq, Repr

/-- The `self.result` dictionary of `OptimizationTask` as initialized in
`start` (task.py lines 79-86) and mutated by `handle_optimizer_event`,
`stop` and `_run_optimization`. -/
structure ResultState where
  optimization_trace : List TracePoint
  best_value : PFloat
  best_params : PyVal
  total_evaluations : PyVal
  start_time : ℚ
  end_time : Option ℚ
deriving DecidableEq, Repr

/-- The observable state of an `OptimizationTask` (task.py lines 26-47).
The `config` attribute is opaque to every operation modelled here and is
omitted; `self._optimizer` is tracked by `has_optimizer` (it is `None`
exactly when `has_optimizer = false`), and `self._optimization_task`
carries no further observable state in the modelled operations. -/
structure TaskState where
  task_id : String
  status : TaskStatus
  result : Option ResultState
  error : Option String
  stop_requested : Bool
  pause_requested : Bool
  has_optimizer : Bool
deriving DecidableEq, Repr

/-- `OptimizationTask.__init__`: a fresh task is `pending` with no result,
no error and no flags set. -/
def newTask (id : String) : TaskState :=
  { task_id := id
    status := .pending
    result := none
    error := none
    stop_requested := false
    pause_requested := false
    has_optimizer := false }

/-- The result dictionary `start` initializes (task.py lines 79-86):
empty trace, `best_value = float("inf")`, no best params, zero
evaluations, `start_time = time.time()`. -/
def initialResult (now : ℚ) : ResultState :=
  { optimization_trace := []
    best_value := ⊤
    best_params := .pynone
    total_evaluations := .int 0
    start_time := now
    end_time := none }

/-- The `TASK_STATUS_CHANGED` event `_update_status` emits (task.py lines
62-71). -/
def statusChangedEvent (id : String) (oldS newS : TaskStatus) : Event :=
  create_task_event .TASK_STATUS_CHANGED id
    [("old_status", .str oldS.toStr), ("new_status", .str newS.toStr)]

/-- `OptimizationTask.start` (task.py lines 73-93), parameterized by the
clock value `time.time()` reads.  Raises `ValueError` unless the status is
`pending`; otherwise initializes the result dictionary, emits
`TASK_STARTED`, moves to `running` and launches the optimization loop
(the loop itself is `run_optimization` below). -/
def OptimizationTask.start (t : TaskState) (now : ℚ) :
    Except String (TaskState × List Event) :=
  if t.status ≠ .pending then
    .error ("Cannot start task in " ++ t.status.toStr ++ " state")
  else
    let r : ResultState := initialResult now
    .ok ({ t with status := .running, result := some r },
         [create_task_event .TASK_STARTED t.task_id [],
          statusChangedEvent t.task_id t.status .running])

/-- `OptimizationTask.stop` (task.py lines 95-115), parameterized by the
clock.  A `completed` task returns immediately (the Python return value is
`None`); any status other than `running`/`paused` raises `ValueError`;
otherwise the stop flag is set, the loop is cancelled (the loop re-raises
`CancelledError` without touching the state), the optimizer is released,
`end_time` is recorded and the status becomes `stopped`.  If `self.result`
were still `None` the subscript on line 114 would raise `TypeError`; that
branch is kept for faithfulness though `start` always sets the result
before the status can be `running` or `paused`. -/
def OptimizationTask.stop (t : TaskState) (now : ℚ) :
    Except String (TaskState × List Event) :=
  if t.status = .completed then
    .ok (t, [])
  else if t.status ≠ .running ∧ t.status ≠ .paused then
    .error ("Cannot stop task in " ++ t.status.toStr ++ " state")
  else
    match t.result with
    | none => .error "TypeError: NoneType object does not support item assignment"
    | some r =>
        .ok ({ t with
                stop_requested := true
                has_optimizer := false
                result := some { r with end_time := some now }
                status := .stopped },
             [statusChangedEvent t.task_id t.status .stopped])

/-- `OptimizationTask.pause` (task.py lines 117-129).  Raises `ValueError`
unless the status is `running`; otherwise sets the pause flag, pauses the
optimizer if one exists, and moves to `paused`.  The Python return value
is `None`. -/
def OptimizationTask.pause (t : TaskState) :
    Except String (TaskState × List Event) :=
  if t.status ≠ .running then
    .error ("Cannot pause task in " ++ t.status.toStr ++ " state")
  else
    .ok ({ t with pause_requested := true, status := .paused },
         [statusChangedEvent t.task_id t.status .paused])

/-- `OptimizationTask.resume` (task.py lines 131-143).  Raises
`ValueError` unless the status is `paused`; otherwise clears the pause
flag and moves back to `running`.  The Python return value is `None`. -/
def OptimizationTask.resume (t : TaskState) :
    Except String (TaskState × List Event) :=
  if t.status ≠ .paused then
    .error ("Cannot resume task in " ++ t.status.toStr ++ " state")
  else
    .ok ({ t with pause_requested := false, status := .running },
         [statusChangedEvent t.task_id t.status .running])

/-- Outcome of one objective evaluation inside
`BaseParallelOptimizer._evaluate_candidate_wrapper`: either the float the
objective returned, or the exception it raised (rendered by `str(e)`). -/
inductive EvalRes where
  | val (r : PFloat)
  | exn (msg : String)
deriving DecidableEq, Repr

/-- The dictionary `BaseParallelOptimizer.optimize` returns (lines
119-123): `best_params`, `best_value` and `total_evaluations` (the
latter is nevergrad `num_tell`, the number of `tell` calls made). -/
structure OptResult where
  best_params : Option (List (String × ℚ))
  best_value : PFloat
  total_evaluations : Nat
deriving DecidableEq, Repr

/-- Internal accumulator of `optimize`: `self._best_value`,
`self._best_params` and the tell count. -/
structure OptAcc where
  best_value : PFloat
  best_params : Option (List (String × ℚ))
  num_tell : Nat
deriving DecidableEq, Repr

/-- The `ITERATION_COMPLETED` event `optimize` emits after every `tell`
(base_optimizer.py lines 106-112): the data keys are `best_x` and
`best_y` (not `value`/`best_value`), and since `OptimizationTask` builds
the optimizer without a `task_id` (task.py line 149), the guarded emit on
lines 98-104 never runs and the task id is the fallback `"test"`. -/
def iterationEvent (bestParams : Option (List (String × ℚ)))
    (kwargs : List (String × ℚ)) (best : PFloat) : Event :=
  create_task_event .ITERATION_COMPLETED "test"
    [("best_x", .pdict (bestParams.getD kwargs)),
     ("best_y", .num best)]

/-- One pass of the result loop of `optimize` (base_optimizer.py lines
82-112) over the evaluation outcomes in the order `tell` processes them:
an exception among the gathered results is re-raised (stopping the run
and discarding the later candidates), a value is told to the generator,
updates the best-so-far under a strict `<` comparison, and emits one
`ITERATION_COMPLETED` event. -/
def optimizeGo (acc : OptAcc) (events : List Event) :
    List (List (String × ℚ) × EvalRes) →
    Except String OptResult × List Event
  | [] =>
      (.ok { best_params := acc.best_params
             best_value := acc.best_value
             total_evaluations := acc.num_tell }, events)
  | (_, .exn msg) :: _ => (.error msg, events)
  | (kwargs, .val v) :: rest =>
      let acc' : OptAcc :=
        if v < acc.best_value then
          { best_value := v, best_params := some kwargs
            num_tell := acc.num_tell + 1 }
        else
          { acc with num_tell := acc.num_tell + 1 }
      optimizeGo acc' (events ++ [iterationEvent acc'.best_params kwargs acc'.best_value]) rest

/-- `BaseParallelOptimizer.optimize` (base_optimizer.py lines 32-127) on a
run whose ask/evaluate phases produced `evals`: the list of
`(candidate.kwargs, evaluation outcome)` pairs in the order the result
loop processes them (candidate order within each batch, batches in
sequence; its length is bounded by the configured budget).  The best
value starts at `float("inf")` (line 29).  Exceptions raised by the
objective are gathered with `return_exceptions=True` and re-raised when
their candidate is processed (lines 79-85), which `optimize` then
propagates (lines 114-116, 125-127). -/
def optimize (evals : List (List (String × ℚ) × EvalRes)) :
    Except String OptResult × List Event :=
  optimizeGo { best_value := ⊤, best_params := none, num_tell := 0 } [] evals

/-- The `handle_optimizer_event` closure of
`OptimizationTask._run_optimization` (task.py lines 152-189): its first
statement evaluates `event.event_type`, but `utils/events.py`
`Event.__init__` assigns the attribute `type` (line 106), never
`event_type`, and no other code adds one — so the lookup raises
`AttributeError` before any statement of the body runs, for every event
the optimizer delivers.  (The body after that line, which would guard the
best-value update with `best_value < self.result["best_value"]` and
append a trace point, is therefore unreachable; it would itself raise
`AttributeError` at line 182, `EventType.OPTIMIZATION_PROGRESS` not being
a member of the enum.) -/
def handle_optimizer_event (_r : ResultState) (_e : Event) :
    Except String (ResultState × List Event) :=
  .error "AttributeError: Event object has no attribute event_type"

/-- `EventEmitter.emit` (utils/events.py lines 133-145) around one
subscriber: a subscriber that raises is logged and swallowed, leaving the
state it had not yet changed intact. -/
def emitToHandler (r : ResultState) (e : Event) : ResultState :=
  match handle_optimizer_event r e with
  | .ok (r', _) => r'
  | .error _ => r

/-- The Python value of `result["best_params"]` from the optimizer: the
kwargs dictionary, or `None` when no evaluation ever improved on the
initial infinity. -/
def pyOfParams : Option (List (String × ℚ)) → PyVal
  | none => .pynone
  | some kv => .pdict kv

/-- How `_run_optimization` left the coroutine: a plain return, a
re-raised exception, or a re-raised `asyncio.CancelledError`. -/
inductive RunExit where
  | returned
  | raised (msg : String)
  | raisedCancelled
deriving DecidableEq, Repr

/-- Outcome of the `await self._optimizer.optimize()` call inside
`_run_optimization`: the result dictionary, an exception (in particular
one propagated from the objective function), or cancellation of the
coroutine by `stop`. -/
inductive OptimizeOutcome where
  | success (r : OptResult)
  | failure (msg : String)
  | cancelled
deriving DecidableEq, Repr

/-- The outcome `optimize` hands to `_run_optimization` for a run that
was not cancelled. -/
def outcomeOfOptimize (evals : List (List (String × ℚ) × EvalRes)) :
    OptimizeOutcome :=
  match (optimize evals).1 with
  | .ok r => .success r
  | .error msg => .failure msg

/-- `OptimizationTask._run_optimization` (task.py lines 145-263),
parameterized by the outcome of the `optimize` call, by the value
`stopAfter` that `self._stop_requested` holds at the checks after that
await (lines 209, 245, 260 — `stop` may set it while the coroutine is
suspended), and by the clock.  The optimizer is created first (line 149).
If the stop flag is already set the coroutine returns at line 202.  A
`CancelledError` is re-raised by both handlers without touching status or
error (lines 241-243, 256-258).  Any other exception sets
`self.error = str(e)` and moves to `failed`, emitting
`OPTIMIZATION_ERROR` (lines 244-254), unless the stop flag is set; the
re-raise is then caught once more by the outer handler (lines 259-263),
which repeats the error assignment and the `failed` transition.  On
success, unless stopped, the final result is written and the task
completes, emitting `OPTIMIZATION_COMPLETED` (lines 212-240); the final
trace point is appended only when the trace is still empty. -/
def run_optimization (t : TaskState) (outcome : OptimizeOutcome)
    (stopAfter : Bool) (now : ℚ) : TaskState × List Event × RunExit :=
  let t₁ := { t with has_optimizer := true }
  if t.stop_requested then (t₁, [], .returned)
  else
    match outcome with
    | .cancelled => (t₁, [], .raisedCancelled)
    | .failure msg =>
        if stopAfter then (t₁, [], .raised msg)
        else
          let t₂ := { t₁ with error := some msg, status := .failed }
          (t₂,
           [statusChangedEvent t.task_id t₁.status .failed,
            create_task_event .OPTIMIZATION_ERROR t.task_id
              [("error", .str msg)],
            statusChangedEvent t.task_id .failed .failed],
           .raised msg)
    | .success r =>
        if stopAfter then (t₁, [], .returned)
        else if t₁.status = .stopped then (t₁, [], .returned)
        else
          match t₁.result with
          | none =>
              -- `self.result["optimization_trace"]` with `self.result` None
              -- raises `TypeError`, which the handlers on lines 244-254 and
              -- 259-263 treat like any other exception.
              let msg := "TypeError: NoneType object is not subscriptable"
              if stopAfter then (t₁, [], .raised msg)
              else
                let t₂ := { t₁ with error := some msg, status := .failed }
                (t₂,
                 [statusChangedEvent t.task_id t₁.status .failed,
                  create_task_event .OPTIMIZATION_ERROR t.task_id
                    [("error", .str msg)],
                  statusChangedEvent t.task_id .failed .failed],
                 .raised msg)
          | some res =>
              let bp := pyOfParams r.best_params
              let res₁ :=
                if res.optimization_trace.isEmpty then
                  { res with optimization_trace :=
                      [{ iteration := 0
                         value := .num r.best_value
                         best_value := .num r.best_value
                         params := bp
                         best_params := bp
                         total_evaluations := .int r.total_evaluations
                         timestamp := now }] }
                else res
              let res₂ :=
                { res₁ with
                    best_value := r.best_value
                    best_params := bp
                    total_evaluations := .int r.total_evaluations
                    end_time := some now }
              let t₂ := { t₁ with result := some res₂, status := .completed }
              (t₂,
               [statusChangedEvent t.task_id t₁.status .completed,
                create_task_event .OPTIMIZATION_COMPLETED t.task_id
                  [("best_value", .num r.best_value),
                   ("best_params", bp),
                   ("total_evaluations", .int r.total_evaluations)]],
               .returned)

/-- Association-list lookup for the `Dict[str, ...]` mappings of
`manager.py` and `websocket_manager.py`, in insertion order. -/
def alookup {α : Type} (id : String) : List (String × α) → Option α
  | [] => none
  | (k, v) :: rest => if k = id then some v else alookup id rest

/-- Replace the value stored under a key (the in-place mutation of the
task object the queue dictionary holds). -/
def aset {α : Type} (id : String) (v : α) : List (String × α) → List (String × α)
  | [] => []
  | (k, w) :: rest => if k = id then (k, v) :: rest else (k, w) :: aset id v rest

/-- The state of `TaskQueue` (manager.py lines 15-23): the ordered task
mapping, `_stopped`, `_is_paused`, `_current_task`, and whether
`_processing_task` is set. -/
structure QueueState where
  tasks : List (String × TaskState)
  stopped : Bool
  is_paused : Bool
  current_task : Option String
  has_processing_task : Bool
deriving DecidableEq, Repr

/-- A freshly constructed queue (manager.py lines 15-23). -/
def initQueue : QueueState :=
  { tasks := [], stopped := true, is_paused := false
    current_task := none, has_processing_task := false }

/-- `TaskQueue.is_processing` (manager.py lines 25-28). -/
def QueueState.is_processing (q : QueueState) : Bool := !q.stopped

/-- The Python return values the delegate operations produce: `False` for
an unknown id, `True` from `start_task`, and the bare `None` that
`task.pause()` / `task.resume()` / `task.stop()` return and that
`pause_task` / `resume_task` / `stop_task` pass through. -/
inductive PyRet where
  | pybool (b : Bool)
  | pynone
deriving DecidableEq, Repr

/-- `TaskQueue.add_task` (manager.py lines 35-73), parameterized by the
`str(uuid.uuid4())` draw used when the config carries no `task_id`.  A
duplicate id raises `ValueError` before anything is inserted (the
`except` clause on lines 71-73 logs and re-raises).  Otherwise the task
is constructed `pending`, stored, subscribed, and a `TASK_ADDED` event is
emitted carrying the task status.  The Python return value is `None`
(the function is annotated `-> None` and has no return statement). -/
def TaskQueue.add_task (q : QueueState) (cfgTaskId : Option String)
    (freshId : String) :
    Except String (QueueState × List Event × Option String) :=
  let task_id := cfgTaskId.getD freshId
  match alookup task_id q.tasks with
  | some _ => .error ("Task " ++ task_id ++ " already exists in queue")
  | none =>
      let task := newTask task_id
      .ok ({ q with tasks := q.tasks ++ [(task_id, task)] },
           [create_task_event .TASK_ADDED task_id
              [("status", .str task.status.toStr)]],
           none)

/-- `TaskQueue.get_task` (manager.py lines 75-87): an unknown id returns
`None`; for a task that is present the code calls `task.to_dict()`, but
neither `OptimizationTask` nor its base class `EventEmitter` defines a
`to_dict` method, so the attribute lookup raises `AttributeError`. -/
def TaskQueue.get_task (q : QueueState) (task_id : String) :
    Except String (Option (List (String × PyTop))) :=
  match alookup task_id q.tasks with
  | none => .ok none
  | some _ =>
      .error "AttributeError: OptimizationTask object has no attribute to_dict"

/-- `TaskQueue.list_tasks` (manager.py lines 89-95): builds
`task.to_dict()` for every stored task, so it raises `AttributeError` as
soon as the mapping is non-empty and returns `[]` otherwise. -/
def TaskQueue.list_tasks (q : QueueState) :
    Except String (List (List (String × PyTop))) :=
  match q.tasks with
  | [] => .ok []
  | _ :: _ =>
      .error "AttributeError: OptimizationTask object has no attribute to_dict"

/-- `TaskQueue.stop_processing` (manager.py lines 109-128): a no-op when
the queue is not processing; otherwise sets `_stopped`, cancels and
clears the processing coroutine, resets the paused flag and the current
task pointer, and clears the whole task mapping. -/
def TaskQueue.stop_processing (q : QueueState) : QueueState :=
  if !q.is_processing then q
  else
    { tasks := [], stopped := true, is_paused := false
      current_task := none, has_processing_task := false }

/-- `TaskQueue.stop_task` (manager.py lines 232-246): `False` for an
unknown id, otherwise `return await task.stop()` — the `ValueError` a
terminal-but-not-completed task raises propagates to the caller, and a
successful delegate call returns the `None` that `task.stop()` returns. -/
def TaskQueue.stop_task (q : QueueState) (task_id : String) (now : ℚ) :
    Except String (QueueState × List Event × PyRet) :=
  match alookup task_id q.tasks with
  | none => .ok (q, [], .pybool false)
  | some t =>
      match OptimizationTask.stop t now with
      | .error msg => .error msg
      | .ok (t', evs) =>
          .ok ({ q with tasks := aset task_id t' q.tasks }, evs, .pynone)

/-- `TaskQueue.pause_task` (manager.py lines 248-262): `False` for an
unknown id, otherwise `return await task.pause()` — the `ValueError` a
non-running task raises propagates, and success returns `None`. -/
def TaskQueue.pause_task (q : QueueState) (task_id : String) :
    Except String (QueueState × List Event × PyRet) :=
  match alookup task_id q.tasks with
  | none => .ok (q, [], .pybool false)
  | some t =>
      match OptimizationTask.pause t with
      | .error msg => .error msg
      | .ok (t', evs) =>
          .ok ({ q with tasks := aset task_id t' q.tasks }, evs, .pynone)

/-- `TaskQueue.resume_task` (manager.py lines 264-278): `False` for an
unknown id, otherwise `return await task.resume()` — the `ValueError` a
non-paused task raises propagates, and success returns `None`. -/
def TaskQueue.resume_task (q : QueueState) (task_id : String) :
    Except String (QueueState × List Event × PyRet) :=
  match alookup task_id q.tasks with
  | none => .ok (q, [], .pybool false)
  | some t =>
      match OptimizationTask.resume t with
      | .error msg => .error msg
      | .ok (t', evs) =>
          .ok ({ q with tasks := aset task_id t' q.tasks }, evs, .pynone)

/-- `TaskQueue.start_task` (manager.py lines 285-306): the whole body sits
in a `try` whose handler returns `False`, so an unknown id gives `False`,
a `ValueError` from `task.start()` gives `False`, and success gives
`True`. -/
def TaskQueue.start_task (q : QueueState) (task_id : String) (now : ℚ) :
    QueueState × List Event × PyRet :=
  match alookup task_id q.tasks with
  | none => (q, [], .pybool false)
  | some t =>
      match OptimizationTask.start t now with
      | .error _ => (q, [], .pybool false)
      | .ok (t', evs) =>
          ({ q with tasks := aset task_id t' q.tasks }, evs, .pybool true)

/-- Where the `_process_tasks` coroutine (manager.py lines 156-230) is
suspended: at the top of the outer `while` (about to scan for a pending
task), or inside the inner `while task.status == "running"` wait loop for
the task it started. -/
inductive SchedPhase where
  | idle
  | waiting (task_id : String)
deriving DecidableEq, Repr

/-- The state of the scheduling loop together with the statuses of the
tasks it schedules (the loop reads and reacts only to `task.status`). -/
structure SchedState where
  tasks : List (String × TaskStatus)
  phase : SchedPhase
  is_paused : Bool
  stopped : Bool
  current_task : Option String
deriving DecidableEq, Repr

/-- The status of a task in the scheduler state. -/
def SchedState.statusOf (s : SchedState) (id : String) : Option TaskStatus :=
  alookup id s.tasks

/-- The first task with status `pending`, in insertion order
(manager.py lines 172-183: the list comprehension over
`self._tasks.values()` followed by `pending_tasks[0]`). -/
def firstPending : List (String × TaskStatus) → Option String
  | [] => none
  | (id, st) :: rest =>
      if st = .pending then some id else firstPending rest

/-- Set the status of one task. -/
def setStatus (id : String) (st : TaskStatus) :
    List (String × TaskStatus) → List (String × TaskStatus)
  | [] => []
  | (k, w) :: rest =>
      if k = id then (k, st) :: rest else (k, w) :: setStatus id st rest

/-- One scheduling quantum of `_process_tasks` between two suspension
points (manager.py lines 166-219).  If the loop was cancelled nothing
more runs.  From the top of the outer loop: a paused queue just sleeps; with
no pending task it sleeps; otherwise it records the current task, calls
`task.start()` (which moves the pending task to `running`) and enters the
inner wait loop.  The inner loop sleeps again only while the started
task's status is exactly `"running"`; any other status — including
`"paused"` — falls through, emits the completion or failure event when
one applies, clears the current-task pointer and returns to the outer
loop. -/
def schedStep (s : SchedState) : SchedState :=
  if s.stopped then s
  else
    match s.phase with
    | .idle =>
        if s.is_paused then s
        else
          match firstPending s.tasks with
          | none => s
          | some id =>
              { s with tasks := setStatus id .running s.tasks
                       phase := .waiting id
                       current_task := some id }
    | .waiting id =>
        match s.statusOf id with
        | some .running => s
        | _ => { s with phase := .idle, current_task := none }

/-- `OptimizationTask.pause` performed on a task the scheduler is
driving, as an environment step of the transition system: it is valid
exactly on a `running` task, which it moves to `paused` (task.py lines
117-129). -/
def schedPause (s : SchedState) (id : String) : Option SchedState :=
  match s.statusOf id with
  | some .running => some { s with tasks := setStatus id .paused s.tasks }
  | _ => none

/-- A running task finishing on its own — the `completed` transition of
`_run_optimization` — as an environment step of the transition system. -/
def schedComplete (s : SchedState) (id : String) : Option SchedState :=
  match s.statusOf id with
  | some .running => some { s with tasks := setStatus id .completed s.tasks }
  | _ => none

/-- A WebSocket connection handle as the manager observes it: an identity
and whether `send_json` on it raises (the transport abstraction of a dead
peer). -/
structure ConnHandle where
  hid : Nat
  send_fails : Bool
deriving DecidableEq, Repr

/-- The `event_data` dictionary built in
`WebSocketManager.broadcast` (websocket_manager.py lines 101-106) and in
`_handle_queue_event` (lines 126-131): `type` is `event.type.value` — the
integer `auto()` assigned to the enum member, not its name — and
`timestamp` comes from `event.timestamp.isoformat()`. -/
structure WireData where
  type : Nat
  task_id : Option String
  timestamp : ℚ
  data : List (String × PyVal)
deriving DecidableEq, Repr

/-- The attribute access `event.timestamp` that the three serialization
sites of `websocket_manager.py` (lines 104, 129, 245) perform:
`utils/events.py` `Event.__init__` assigns only `type`, `task_id` and
`data`, and no code in the repository sets a `timestamp` attribute on an
`Event`, so the lookup raises `AttributeError` for every event the
`TaskQueue` bus delivers. -/
def eventTimestamp (_e : Event) : Except String ℚ :=
  .error "AttributeError: Event object has no attribute timestamp"

/-- Building `event_data` from an `Event` (websocket_manager.py lines
101-106 and 126-131): evaluates `event.type.value`, `event.task_id`,
`event.timestamp.isoformat()` and `event.data`; the `timestamp` access
raises before the dictionary is completed. -/
def serializeEventData (e : Event) : Except String WireData :=
  match eventTimestamp e with
  | .error msg => .error msg
  | .ok ts =>
      .ok { type := e.type.value, task_id := e.task_id
            timestamp := ts, data := e.data }

/-- The state of `WebSocketManager` (websocket_manager.py lines 22-27):
the client-id to connection mapping, the replay buffer, its fixed
capacity of 100, and whether `initialize_queue` has run. -/
structure WSManager where
  connections : List (String × ConnHandle)
  event_buffer : List WireData
  buffer_size : Nat
  has_task_queue : Bool
deriving DecidableEq, Repr

/-- A freshly constructed manager (buffer capacity 100, no queue yet). -/
def initWSManager : WSManager :=
  { connections := [], event_buffer := [], buffer_size := 100
    has_task_queue := false }

/-- The per-connection send loop shared by `broadcast` (lines 108-116)
and `_handle_queue_event` (lines 139-147): iterate the registered
connections in order; a send that raises is caught, logged and skipped —
the loop body never removes the connection from `self._connections`
(the comment on lines 116 and 147 defers removal to the router) and the
exception never leaves the loop.  Returns the client ids whose send
succeeded, in registry order. -/
def sendLoopGo : List (String × ConnHandle) → List String
  | [] => []
  | (cid, c) :: rest =>
      if c.send_fails then sendLoopGo rest
      else cid :: sendLoopGo rest

/-- The send loop over a manager: the connection mapping after the loop
is the one it started with (no statement of the loop mutates it), paired
with the delivered client ids. -/
def broadcastSendLoop (m : WSManager) : WSManager × List String :=
  (m, sendLoopGo m.connections)

/-- `WebSocketManager.broadcast` (websocket_manager.py lines 94-116):
without a queue it logs and returns; otherwise it builds `event_data` —
where the `event.timestamp` access raises `AttributeError`, and the
method body has no handler around the serialization, so the exception
propagates to the caller — and only then runs the send loop. -/
def WebSocketManager.broadcast (m : WSManager) (e : Event) :
    Except String (WSManager × List String) :=
  if !m.has_task_queue then .ok (m, [])
  else
    match serializeEventData e with
    | .error msg => .error msg
    | .ok _ => .ok (broadcastSendLoop m)

/-- `WebSocketManager._handle_queue_event` (websocket_manager.py lines
118-150), the subscriber the manager registers on the `TaskQueue` bus:
without a queue it logs and returns; otherwise the whole body sits in a
`try` whose handler only logs, so when building `event_data` raises
`AttributeError` the event is silently dropped — it is neither appended
to `_event_buffer` nor broadcast.  Were the serialization to succeed, the
event would be appended and the oldest entry evicted once the buffer
exceeds its capacity, before the send loop runs. -/
def WebSocketManager.handle_queue_event (m : WSManager) (e : Event) :
    WSManager × List String :=
  if !m.has_task_queue then (m, [])
  else
    match serializeEventData e with
    | .error _ => (m, [])
    | .ok w =>
        let buf := m.event_buffer ++ [w]
        let buf := if m.buffer_size < buf.length then buf.tail else buf
        let m' := { m with event_buffer := buf }
        (m', sendLoopGo m'.connections)

/-- `WebSocketManager.connect` (websocket_manager.py lines 44-69):
a stale connection under the same client id is closed and the mapping
entry is overwritten (dictionary assignment keeps the original insertion
position); otherwise the new connection is appended.  The buffered events
are then replayed to the new connection one by one, each send guarded by
a `try` that only logs.  Returns the manager and the replayed payloads
the new connection actually received. -/
def WebSocketManager.connect (m : WSManager) (ws : ConnHandle)
    (client_id : String) : WSManager × List WireData :=
  let conns :=
    match alookup client_id m.connections with
    | some _ => aset client_id ws m.connections
    | none => m.connections ++ [(client_id, ws)]
  let replayed := if ws.send_fails then [] else m.event_buffer
  ({ m with connections := conns }, replayed)

/-- A task on which `start` has just been called: `start` on a fresh
`pending` task always succeeds, and this extracts the started state. -/
def afterStart (id : String) (now : ℚ) : TaskState :=
  match OptimizationTask.start (newTask id) now with
  | .ok (t, _) => t
  | .error _ => newTask id

/-- The optimizer result a completed run reports, read off the `optimize`
return value; a run that raised leaves `self.result["best_value"]` at the
value it had, which for a faithfully started task is the initial
infinity. -/
def finalBest (evals : List (List (String × ℚ) × EvalRes)) : PFloat :=
  match (optimize evals).1 with
  | .ok r => r.best_value
  | .error _ => ⊤

/-- The successive values of `self.result["best_value"]` over one task
run, assembled from the embedded source functions: the value `start`
initializes, the value after each `ITERATION_COMPLETED` event the
optimizer delivers to `handle_optimizer_event` through
`EventEmitter.emit`, and the value after `_run_optimization` finishes
with the outcome of that same `optimize` run. -/
def runBestHistory (evals : List (List (String × ℚ) × EvalRes)) :
    List PFloat :=
  let t₀ := afterStart "t" 0
  match t₀.result with
  | none => []
  | some r₀ =>
      let events := (optimize evals).2
      let rs := List.scanl emitToHandler r₀ events
      let t₁ := { t₀ with result := some (events.foldl emitToHandler r₀) }
      let tFin := (run_optimization t₁ (outcomeOfOptimize evals) false 1).1
      rs.map (fun r => r.best_value) ++
        (match tFin.result with
         | some r => [r.best_value]
         | none => [])

/-- The task state `stop` produces from a `running`/`paused` task whose
result dictionary is `r`. -/
def stopResult (t : TaskState) (r : ResultState) (now : ℚ) : TaskState :=
  { t with
      stop_requested := true
      has_optimizer := false
      result := some { r with end_time := some now }
      status := .stopped }

/-- Concrete evaluation sequence used to instantiate the run-history
theorem: one candidate scoring 2. -/
def c9Evals : List (List (String × ℚ) × EvalRes) :=
  [([("x", 3)], .val ((2 : ℚ) : PFloat))]

/-- Concrete evaluation sequence whose only candidate raises
`ValueError("boom")`: the objective error scenario. -/
def c3Evals : List (List (String × ℚ) × EvalRes) :=
  [([("x", 1)], .exn "boom")]

/-- Scheduler counterexample, initial state: two pending tasks, queue
processing, not paused. -/
def c1s0 : SchedState :=
  { tasks := [("A", .pending), ("B", .pending)]
    phase := .idle, is_paused := false, stopped := false
    current_task := none }

/-- After one scheduler step: task A started (running), loop waiting on A. -/
def c1s1 : SchedState :=
  { tasks := [("A", .running), ("B", .pending)]
    phase := .waiting "A", is_paused := false, stopped := false
    current_task := some "A" }

/-- After `pause_task("A")`: A paused while the loop still waits on it. -/
def c1s2 : SchedState :=
  { tasks := [("A", .paused), ("B", .pending)]
    phase := .waiting "A", is_paused := false, stopped := false
    current_task := some "A" }

/-- After the next scheduler step: the inner wait loop sees a status
other than `"running"` and falls through to the outer loop. -/
def c1s3 : SchedState :=
  { tasks := [("A", .paused), ("B", .pending)]
    phase := .idle, is_paused := false, stopped := false
    current_task := none }

/-- Queue holding one still-pending task, for the delegate-operation
counterexample. -/
def c4Queue : QueueState :=
  { initQueue with tasks := [("t1", newTask "t1")] }

/-- Queue holding one running task. -/
def c4RunningQueue : QueueState :=
  { initQueue with tasks := [("t1", afterStart "t1" 0)] }

/-- A websocket manager wired to a queue, no clients yet. -/
def c5Manager : WSManager :=
  { initWSManager with has_task_queue := true }

/-- A queue event as the `TaskQueue` bus delivers it. -/
def c5Event : Event :=
  { type := .TASK_ADDED, task_id := some "task-1", data := [] }

/-- A healthy connection joining after the event was broadcast. -/
def c5NewConn : ConnHandle := { hid := 7, send_fails := false }

/-- A connection whose `send_json` raises. -/
def c6Conn1 : ConnHandle := { hid := 1, send_fails := true }

/-- A healthy connection. -/
def c6Conn2 : ConnHandle := { hid := 2, send_fails := false }

/-- A manager with one dead and one healthy client registered. -/
def c6Manager : WSManager :=
  { connections := [("c1", c6Conn1), ("c2", c6Conn2)]
    event_buffer := [], buffer_size := 100, has_task_queue := true }

/-- A task event checked against the documented wire format. -/
def c7Event : Event :=
  { type := .TASK_ADDED, task_id := some "task-1", data := [] }

/-- A queue that is currently processing. -/
def c10Queue : QueueState :=
  { initQueue with
      stopped := false
      has_processing_task := true
      tasks := [("t1", newTask "t1"), ("t2", afterStart "t2" 0)] }

/-! ## Helper lemmas -/

/-- The per-connection send loop delivers exactly to the connections
whose send does not fail, in registry order. -/
theorem sendLoopGo_delivers (l : List (String × ConnHandle)) :
    sendLoopGo l = (l.filter (fun p => !p.2.send_fails)).map Prod.fst := by
  induction l with
  | nil => rfl
  | cons hd tl ih =>
      obtain ⟨cid, c⟩ := hd
      by_cases h : c.send_fails <;> simp [sendLoopGo, h, ih]

/-- A subscriber call through `EventEmitter.emit` leaves the task result
unchanged, because `handle_optimizer_event` raises before touching it. -/
theorem emitToHandler_fixed (r : ResultState) (e : Event) :
    emitToHandler r e = r := rfl

/-- Scanning the handler over any event list yields the initial result
state at every position. -/
theorem scanl_emitToHandler (es : List Event) (r : ResultState) :
    List.scanl emitToHandler r es = List.replicate (es.length + 1) r := by
  induction es generalizing r with
  | nil => rfl
  | cons e es ih =>
      rw [List.scanl_cons, emitToHandler_fixed, ih]
      rfl

/-- Folding the handler over any event list returns the initial result
state. -/
theorem foldl_emitToHandler (es : List Event) (r : ResultState) :
    es.foldl emitToHandler r = r := by
  induction es generalizing r with
  | nil => rfl
  | cons e es ih => rw [List.foldl_cons, emitToHandler_fixed, ih]

/-- A list of copies of `⊤` followed by one value is a non-increasing
chain whose changes are strict decreases, and its last element is a lower
bound for all its elements. -/
theorem chain_replicate_top (k : Nat) (b : PFloat) :
    List.Chain' (fun a c => c ≤ a ∧ (c ≠ a → c < a))
      (List.replicate k ⊤ ++ [b])
    ∧ ∀ x ∈ List.replicate k ⊤ ++ [b], b ≤ x := by
  induction k with
  | zero =>
      refine ⟨by simp, ?_⟩
      intro x hx
      simp only [List.replicate, List.nil_append, List.mem_singleton] at hx
      exact hx ▸ le_refl b
  | succ n ih =>
      rw [List.replicate_succ, List.cons_append]
      refine ⟨List.chain'_cons'.mpr ⟨?_, ih.1⟩, ?_⟩
      · intro y _
        exact ⟨le_top, fun h => WithTop.lt_top_iff_ne_top.mpr h⟩
      · intro x hx
        rcases List.mem_cons.mp hx with h | h
        · exact h ▸ le_top
        · exact ih.2 x h

/-- The best-value history of a run started from a fresh task: the
initial infinity, unchanged across every optimizer event (the handler
raises and the emitter swallows), and the final optimizer best written
at completion — or the untouched infinity when the run raised. -/
theorem runBestHistory_eq (evals : List (List (String × ℚ) × EvalRes)) :
    runBestHistory evals
      = List.replicate ((optimize evals).2.length + 1) ⊤ ++ [finalBest evals] := by
  have ha : afterStart "t" 0 =
      { task_id := "t", status := .running, result := some (initialResult 0)
        error := none, stop_requested := false, pause_requested := false
        has_optimizer := false } := rfl
  unfold runBestHistory
  rw [ha]
  simp only [scanl_emitToHandler, foldl_emitToHandler, List.map_replicate]
  unfold finalBest outcomeOfOptimize
  cases hopt : (optimize evals).1 with
  | ok r => simp [run_optimization, initialResult]
  | error msg => simp [run_optimization, initialResult]

/-! ## Claim theorems -/

/-- C9: over a single task run (minimization), the successive values of
`best_value` recorded in the task result form a monotonically
non-increasing sequence — any change is to a strictly smaller value — and
the final value set at completion is no larger than any previously
recorded `best_value`. -/
theorem c9_best_value_monotone (evals : List (List (String × ℚ) × EvalRes)) :
    List.Chain' (fun a c => c ≤ a ∧ (c ≠ a → c < a)) (runBestHistory evals)
    ∧ ∀ x ∈ runBestHistory evals, (runBestHistory evals).getLastD ⊤ ≤ x := by
  rw [runBestHistory_eq evals]
  have hlast :
      (List.replicate ((optimize evals).2.length + 1) ⊤
        ++ [finalBest evals]).getLastD ⊤ = finalBest evals := by
    simp [List.getLastD_concat]
  rw [hlast]
  exact chain_replicate_top _ _

/-- C9 witness: the monotone-history theorem applied to a concrete run
with one evaluation scoring 2. -/
theorem c9_witness :
    (⊤ : PFloat) ∈ runBestHistory c9Evals
    ∧ (runBestHistory c9Evals).getLastD ⊤ ≤ ⊤ :=
  ⟨by decide, (c9_best_value_monotone c9Evals).2 ⊤ (by decide)⟩

/-- C5 (code bug): after one queue event is forwarded, the replay buffer
is still empty and a client that then connects receives no replayed
events — the handler's `event.timestamp` access raises and the event is
silently dropped, so the buffered replay the code was written for never
happens. -/
theorem c5_replay_buffer_stays_empty :
    (WebSocketManager.handle_queue_event c5Manager c5Event).1.event_buffer = []
    ∧ (WebSocketManager.connect
        (WebSocketManager.handle_queue_event c5Manager c5Event).1
        c5NewConn "client-1").2 = [] := by
  exact ⟨rfl, rfl⟩

/-- C6 counterexample: broadcasting to a registry holding a dead
connection `c1` and a healthy `c2` delivers to `c2` only, yet `c1`
remains registered afterwards — the send failure does not drop the
connection from the registry as the claim states. -/
theorem c6_counterexample_dead_connection_kept :
    (broadcastSendLoop c6Manager).2 = ["c2"]
    ∧ (broadcastSendLoop c6Manager).1.connections
        = [("c1", c6Conn1), ("c2", c6Conn2)]
    ∧ alookup "c1" (broadcastSendLoop c6Manager).1.connections = some c6Conn1 := by
  exact ⟨rfl, rfl, rfl⟩

/-- C6 amended: on a per-connection send failure the error is logged and
the loop simply continues — the failure does not propagate out of the
loop and every other registered connection still receives the message —
but the failing connection is NOT dropped from the registry (the code
defers removal to the router). -/
theorem c6_send_failure_logged_not_dropped (m : WSManager) :
    (broadcastSendLoop m).1 = m
    ∧ (broadcastSendLoop m).2
        = (m.connections.filter (fun p => !p.2.send_fails)).map Prod.fst :=
  ⟨rfl, sendLoopGo_delivers m.connections⟩

/-- C7 (code bug): an `Event` carries no emission timestamp —
`Event.to_dict` produces exactly the keys `type`, `task_id` and `data` —
and serializing an event for the wire raises `AttributeError` on the
`event.timestamp` access (and would write the enum integer `.value`, 6
for `TASK_ADDED`, rather than the kind name). -/
theorem c7_event_has_no_timestamp_field :
    Event.to_dict c7Event
      = [("type", .v (.str "TASK_ADDED")),
         ("task_id", .v (.str "task-1")),
         ("data", .dictv [])]
    ∧ serializeEventData c7Event
        = .error "AttributeError: Event object has no attribute timestamp"
    ∧ EventType.value .TASK_ADDED = 6 := by
  exact ⟨rfl, rfl, rfl⟩

/-- C10: stopping a processing queue clears the whole task mapping:
afterwards `get_task` answers `None` for every id and `list_tasks`
answers the empty list. -/
theorem c10_stop_processing_clears_tasks (q : QueueState)
    (h : q.is_processing = true) :
    (∀ id, TaskQueue.get_task (TaskQueue.stop_processing q) id = .ok none)
    ∧ TaskQueue.list_tasks (TaskQueue.stop_processing q) = .ok [] := by
  have hq : TaskQueue.stop_processing q =
      { tasks := [], stopped := true, is_paused := false
        current_task := none, has_processing_task := false } := by
    unfold TaskQueue.stop_processing
    simp [h]
  rw [hq]
  exact ⟨fun id => rfl, rfl⟩

/-- C10 witness: the clearing theorem applied to a concrete processing
queue holding two tasks. -/
theorem c10_witness :
    c10Queue.is_processing = true
    ∧ TaskQueue.get_task (TaskQueue.stop_processing c10Queue) "t1" = .ok none
    ∧ TaskQueue.list_tasks (TaskQueue.stop_processing c10Queue) = .ok [] :=
  ⟨by decide,
   (c10_stop_processing_clears_tasks c10Queue (by decide)).1 "t1",
   (c10_stop_processing_clears_tasks c10Queue (by decide)).2⟩

/-- C1 counterexample: from two pending tasks the scheduler starts A and
waits on it; A is paused; the inner wait loop — which re-checks only
`status == "running"` — falls through, and the very next scheduler step
starts pending task B while A is still `paused`. -/
theorem c1_counterexample_starts_second_task_while_paused :
    schedStep c1s0 = c1s1
    ∧ schedPause c1s1 "A" = some c1s2
    ∧ schedStep c1s2 = c1s3
    ∧ c1s3.statusOf "A" = some .paused
    ∧ c1s3.statusOf "B" = some .pending
    ∧ (schedStep c1s3).statusOf "B" = some .running
    ∧ (schedStep c1s3).statusOf "A" = some .paused
    ∧ (schedStep c1s3).phase = .waiting "B" := by
  decide

/-- C1 amended: after starting a task, the scheduling loop blocks while
that task's status is exactly `running` — no state change, so no second
task is started during that time — but as soon as the status becomes
`paused` the wait falls through and the loop returns to selecting the
next pending task. -/
theorem c1_wait_blocks_only_while_running (s : SchedState) (id : String)
    (hph : s.phase = .waiting id) :
    (s.statusOf id = some .running → schedStep s = s)
    ∧ (s.stopped = false → s.statusOf id = some .paused →
        schedStep s = { s with phase := .idle, current_task := none }) := by
  constructor
  · intro hst
    by_cases hstop : s.stopped
    · simp [schedStep, hstop]
    · simp [schedStep, hstop, hph, hst]
  · intro hstop hst
    simp [schedStep, hstop, hph, hst]

/-- C1 witness: the amended theorem applied at the concrete trace states
of the counterexample. -/
theorem c1_witness :
    c1s1.phase = .waiting "A"
    ∧ c1s1.statusOf "A" = some .running
    ∧ schedStep c1s1 = c1s1
    ∧ c1s2.stopped = false
    ∧ c1s2.statusOf "A" = some .paused
    ∧ schedStep c1s2 = { c1s2 with phase := .idle, current_task := none } :=
  ⟨by decide, by decide,
   (c1_wait_blocks_only_while_running c1s1 "A" (by decide)).1 (by decide),
   by decide, by decide,
   (c1_wait_blocks_only_while_running c1s2 "A" (by decide)).2 (by decide) (by decide)⟩

/-- C2 counterexample: stopping a freshly started (running) task yields
`stopped`, but a second `stop()` immediately raises
`ValueError("Cannot stop task in stopped state")` instead of being a
non-raising no-op. -/
theorem c2_counterexample_second_stop_raises :
    OptimizationTask.stop (afterStart "t1" 0) 5
      = .ok (stopResult (afterStart "t1" 0) (initialResult 0) 5,
             [statusChangedEvent "t1" .running .stopped])
    ∧ OptimizationTask.stop (stopResult (afterStart "t1" 0) (initialResult 0) 5) 6
      = .error "Cannot stop task in stopped state" := by
  exact ⟨rfl, rfl⟩

/-- C2 amended: `stop()` from `running` or `paused` yields `stopped`, and
a second `stop()` then raises `ValueError`; the only terminal state on
which `stop()` is a non-raising no-op is `completed` (where the Python
return value is `None`, not a boolean failure indicator). -/
theorem c2_stop_second_call_raises :
    (∀ (t : TaskState) (r : ResultState) (now now' : ℚ),
        (t.status = .running ∨ t.status = .paused) →
        t.result = some r →
        OptimizationTask.stop t now
            = .ok (stopResult t r now,
                   [statusChangedEvent t.task_id t.status .stopped])
          ∧ (stopResult t r now).status = .stopped
          ∧ OptimizationTask.stop (stopResult t r now) now'
              = .error "Cannot stop task in stopped state")
    ∧ (∀ (t : TaskState) (now : ℚ), t.status = .completed →
        OptimizationTask.stop t now = .ok (t, [])) := by
  constructor
  · intro t r now now' hst hres
    refine ⟨?_, rfl, ?_⟩
    · unfold OptimizationTask.stop
      rcases hst with h | h <;> simp [h, hres, stopResult]
    · rfl
  · intro t now h
    unfold OptimizationTask.stop
    simp [h]

/-- C2 witness: the amended theorem applied to a concrete running task. -/
theorem c2_witness :
    ((afterStart "t1" 0).status = .running ∨ (afterStart "t1" 0).status = .paused)
    ∧ (afterStart "t1" 0).result = some (initialResult 0)
    ∧ OptimizationTask.stop (stopResult (afterStart "t1" 0) (initialResult 0) 5) 6
        = .error "Cannot stop task in stopped state" :=
  ⟨Or.inl (by decide), by decide,
   (c2_stop_second_call_raises.1 (afterStart "t1" 0) (initialResult 0) 5 6
      (Or.inl (by decide)) (by decide)).2.2⟩

/-- C3: when the objective function raises (and stop was not requested),
the exception propagates out of `optimize`, the task error is set to the
exception message, the status becomes `failed` and an
`OPTIMIZATION_ERROR` event is emitted; a cancellation raised by `stop()`
is re-raised without touching the error field. -/
theorem c3_objective_error_sets_failed :
    (∀ (t : TaskState) (evals : List (List (String × ℚ) × EvalRes))
        (msg : String) (now : ℚ),
        t.stop_requested = false →
        (optimize evals).1 = .error msg →
          (run_optimization t (outcomeOfOptimize evals) false now).1.error = some msg
          ∧ (run_optimization t (outcomeOfOptimize evals) false now).1.status = .failed
          ∧ create_task_event .OPTIMIZATION_ERROR t.task_id [("error", .str msg)]
              ∈ (run_optimization t (outcomeOfOptimize evals) false now).2.1)
    ∧ (∀ (t : TaskState) (sA : Bool) (now : ℚ),
        (run_optimization t .cancelled sA now).1.error = t.error) := by
  constructor
  · intro t evals msg now h1 h2
    have ho : outcomeOfOptimize evals = .failure msg := by
      unfold outcomeOfOptimize
      rw [h2]
    rw [ho]
    unfold run_optimization
    simp [h1]
  · intro t sA now
    unfold run_optimization
    by_cases h : t.stop_requested <;> simp [h]

/-- C3 witness: the failure theorem applied to a run whose only
evaluation raises `ValueError("boom")`. -/
theorem c3_witness :
    (afterStart "t1" 0).stop_requested = false
    ∧ (optimize c3Evals).1 = .error "boom"
    ∧ (run_optimization (afterStart "t1" 0) (outcomeOfOptimize c3Evals) false 2).1.status
        = .failed :=
  ⟨by decide, by rfl,
   (c3_objective_error_sets_failed.1 (afterStart "t1" 0) c3Evals "boom" 2
      (by decide) (by rfl)).2.1⟩

/-- C4 counterexample: `pause_task` on the id of a known task that is
still `pending` does not return false — the delegate's `ValueError`
propagates to the caller. -/
theorem c4_counterexample_pause_task_raises :
    TaskQueue.pause_task c4Queue "t1"
      = .error "Cannot pause task in pending state" := by
  exact rfl

/-- C4 amended: all four delegate operations return `False` for an
unknown id without raising; when the id is known but the delegated call
is inapplicable to the current status, `start_task` catches the error and
returns `False` while `pause_task`, `resume_task` and `stop_task`
propagate the delegate's `ValueError` to the caller. -/
theorem c4_unknown_false_inapplicable_raises :
    (∀ (q : QueueState) (id : String) (now : ℚ),
        alookup id q.tasks = none →
        TaskQueue.pause_task q id = .ok (q, [], .pybool false)
        ∧ TaskQueue.resume_task q id = .ok (q, [], .pybool false)
        ∧ TaskQueue.stop_task q id now = .ok (q, [], .pybool false)
        ∧ TaskQueue.start_task q id now = (q, [], .pybool false))
    ∧ (∀ (q : QueueState) (id : String) (t : TaskState),
        alookup id q.tasks = some t → t.status ≠ .running →
        TaskQueue.pause_task q id
          = .error ("Cannot pause task in " ++ t.status.toStr ++ " state"))
    ∧ (∀ (q : QueueState) (id : String) (t : TaskState),
        alookup id q.tasks = some t → t.status ≠ .paused →
        TaskQueue.resume_task q id
          = .error ("Cannot resume task in " ++ t.status.toStr ++ " state"))
    ∧ (∀ (q : QueueState) (id : String) (t : TaskState) (now : ℚ),
        alookup id q.tasks = some t →
        t.status ≠ .completed → t.status ≠ .running → t.status ≠ .paused →
        TaskQueue.stop_task q id now
          = .error ("Cannot stop task in " ++ t.status.toStr ++ " state"))
    ∧ (∀ (q : QueueState) (id : String) (t : TaskState) (now : ℚ),
        alookup id q.tasks = some t → t.status ≠ .pending →
        TaskQueue.start_task q id now = (q, [], .pybool false)) := by
  refine ⟨?_, ?_, ?_, ?_, ?_⟩
  · intro q id now h
    refine ⟨?_, ?_, ?_, ?_⟩ <;>
      simp [TaskQueue.pause_task, TaskQueue.resume_task, TaskQueue.stop_task,
            TaskQueue.start_task, h]
  · intro q id t h hst
    simp [TaskQueue.pause_task, h, OptimizationTask.pause, hst]
  · intro q id t h hst
    simp [TaskQueue.resume_task, h, OptimizationTask.resume, hst]
  · intro q id t now h h1 h2 h3
    simp [TaskQueue.stop_task, h, OptimizationTask.stop, h1, h2, h3]
  · intro q id t now h hst
    simp [TaskQueue.start_task, h, OptimizationTask.start, hst]

/-- C4 witness: the amended theorem applied to an unknown id, to a known
pending task (pause raises) and to a known running task (start_task
returns false). -/
theorem c4_witness :
    alookup "zz" initQueue.tasks = none
    ∧ TaskQueue.pause_task initQueue "zz" = .ok (initQueue, [], .pybool false)
    ∧ alookup "t1" c4Queue.tasks = some (newTask "t1")
    ∧ (newTask "t1").status ≠ .running
    ∧ TaskQueue.pause_task c4Queue "t1"
        = .error ("Cannot pause task in " ++ (newTask "t1").status.toStr ++ " state")
    ∧ alookup "t1" c4RunningQueue.tasks = some (afterStart "t1" 0)
    ∧ (afterStart "t1" 0).status ≠ .pending
    ∧ TaskQueue.start_task c4RunningQueue "t1" 7
        = (c4RunningQueue, [], .pybool false) :=
  ⟨by decide,
   (c4_unknown_false_inapplicable_raises.1 initQueue "zz" 0 (by decide)).1,
   by decide, by decide,
   c4_unknown_false_inapplicable_raises.2.1 c4Queue "t1" (newTask "t1")
     (by decide) (by decide),
   by decide, by decide,
   c4_unknown_false_inapplicable_raises.2.2.2.2 c4RunningQueue "t1"
     (afterStart "t1" 0) 7 (by decide) (by decide)⟩

/-- C8 counterexample: `add_task` on an empty queue with explicit id
`t1` inserts the pending task and emits `TASK_ADDED`, but its return
value is `None`, not the task id. -/
theorem c8_counterexample_add_task_returns_no_id :
    TaskQueue.add_task initQueue (some "t1") "uuid-0"
      = .ok ({ initQueue with tasks := [("t1", newTask "t1")] },
             [create_task_event .TASK_ADDED "t1" [("status", .str "pending")]],
             none)
    ∧ (none : Option String) ≠ some "t1" := by
  exact ⟨rfl, by decide⟩

/-- C8 amended: `add_task` generates an id when the config carries none,
raises `ValueError` on a duplicate id before the mapping is touched, and
otherwise appends the task in `pending` status and emits `TASK_ADDED` —
returning `None` rather than the task id. -/
theorem c8_add_task_semantics :
    (∀ (q : QueueState) (cfgId : Option String) (fresh : String) (t : TaskState),
        alookup (cfgId.getD fresh) q.tasks = some t →
        TaskQueue.add_task q cfgId fresh
          = .error ("Task " ++ cfgId.getD fresh ++ " already exists in queue"))
    ∧ (∀ (q : QueueState) (cfgId : Option String) (fresh : String),
        alookup (cfgId.getD fresh) q.tasks = none →
        TaskQueue.add_task q cfgId fresh
          = .ok ({ q with tasks :=
                     q.tasks ++ [(cfgId.getD fresh, newTask (cfgId.getD fresh))] },
                 [create_task_event .TASK_ADDED (cfgId.getD fresh)
                    [("status", .str "pending")]],
                 none)) := by
  constructor
  · intro q cfgId fresh t h
    simp [TaskQueue.add_task, h]
  · intro q cfgId fresh h
    simp only [TaskQueue.add_task, h]
    rfl

/-- C8 witness: the amended theorem applied to a duplicate submission and
to a submission with a generated id. -/
theorem c8_witness :
    alookup ((some "t1").getD "u") c4Queue.tasks = some (newTask "t1")
    ∧ TaskQueue.add_task c4Queue (some "t1") "u"
        = .error "Task t1 already exists in queue"
    ∧ alookup ((none : Option String).getD "gen-1") initQueue.tasks = none
    ∧ TaskQueue.add_task initQueue none "gen-1"
        = .ok ({ initQueue with tasks := [("gen-1", newTask "gen-1")] },
               [create_task_event .TASK_ADDED "gen-1" [("status", .str "pending")]],
               none) :=
  ⟨by decide,
   by exact c8_add_task_semantics.1 c4Queue (some "t1") "u" (newTask "t1") (by decide),
   by decide,
   by exact c8_add_task_semantics.2 initQueue none "gen-1" (by decide)⟩

end QuantumOpt
